import Mathlib

/-!
Shallow embedding of the discord-voice-connection wrapper.

The repository holds two variants of the same VoiceConnection class:
variant A is src/VoiceConnection.js and variant B is src/unnamed/part_000.
Both wrap the voice library (joinVoiceChannel, getVoiceConnection,
createAudioResource, createAudioPlayer) and the channel directory of the
client (client.channels.fetch). We model the directory as a function from
channel id to a channel or a fetch failure message, the library registry of
connections as an association list keyed by guild id, and each operation as
a function from the combined state to a result carrying the new state, the
outcome of the returned promise, and whether joinVoiceChannel was invoked.

Asynchronous waits on one-shot status events (Ready, Destroyed, Paused,
Playing) are modelled by their settled effect: the awaited transition is
recorded in the state and the promise resolves. Volumes are only stored and
read back, never computed with, so we carry them as rational numbers.
-/

namespace DiscordVoice

/-- Error codes used by the VoiceConnectionError class in both variants. -/
inductive ErrorCode where
  | NO_CONNECTION
  | MISSING_PERMISSIONS
  | CONNECTION_NOT_READY
  | NO_RESOURCE
  | PLAYER_ALREADY_PAUSED
  | PLAYER_NOT_PAUSED
  | NO_CHANNEL
deriving DecidableEq, Repr

/-- Message table of variant A (the object literal in the constructor of
VoiceConnectionError, src/VoiceConnection.js lines 16 to 22). It has no
entry for PLAYER_NOT_PAUSED and none for NO_CHANNEL. -/
def messagesA : ErrorCode → Option String
  | .NO_CONNECTION => some "The client was not connected to this channel."
  | .MISSING_PERMISSIONS => some "The client do not have permissions."
  | .CONNECTION_NOT_READY => some "The connection is not ready to play."
  | .NO_RESOURCE => some "No resource were provided."
  | .PLAYER_ALREADY_PAUSED => some "The player is already paused."
  | .PLAYER_NOT_PAUSED => none
  | .NO_CHANNEL => none

/-- Message table of variant B (the static messages field in
src/unnamed/part_000 lines 27 to 34). It adds PLAYER_NOT_PAUSED but still
has no entry for NO_CHANNEL. -/
def messagesB : ErrorCode → Option String
  | .NO_CONNECTION => some "The client was not connected to this channel."
  | .MISSING_PERMISSIONS => some "The client does not have permissions."
  | .CONNECTION_NOT_READY => some "The connection is not ready to play."
  | .NO_RESOURCE => some "No resource was provided."
  | .PLAYER_ALREADY_PAUSED => some "The player is already paused."
  | .PLAYER_NOT_PAUSED => some "The player is not paused."
  | .NO_CHANNEL => none

/-- A constructed VoiceConnectionError: a code and an optional message
(none models the undefined message of javascript). -/
structure VCError where
  code : ErrorCode
  message : Option String
deriving DecidableEq, Repr

/-- Variant A constructor: this.message = table[code] or-else message. -/
def mkErrorA (code : ErrorCode) (message : Option String) : VCError :=
  { code := code
    message := match messagesA code with
      | some s => some s
      | none => message }

/-- Variant B constructor: super(table[code] or-else message). -/
def mkErrorB (code : ErrorCode) (message : Option String) : VCError :=
  { code := code
    message := match messagesB code with
      | some s => some s
      | none => message }

/-- Connection lifecycle statuses of the voice library. -/
inductive ConnStatus where
  | Signalling
  | Connecting
  | Ready
  | Disconnected
  | Destroyed
deriving DecidableEq, Repr

/-- Audio player statuses of the voice library. -/
inductive PlayerStatus where
  | Idle
  | Buffering
  | Playing
  | Paused
  | AutoPaused
deriving DecidableEq, Repr

/-- A live connection known to the library registry. -/
structure Connection where
  status : ConnStatus
deriving DecidableEq, Repr

/-- An audio player handle. -/
structure Player where
  status : PlayerStatus
deriving DecidableEq, Repr

/-- An audio resource handle with its inline volume control. -/
structure Resource where
  volume : Rat
deriving DecidableEq, Repr

/-- The permission set of the bot member for the target channel, as probed
by channel.permissionsFor(...).has([VIEW_CHANNEL, CONNECT, SPEAK]). -/
structure Perms where
  viewChannel : Bool
  connect : Bool
  speak : Bool
deriving DecidableEq, Repr

/-- Whether the permission set contains all three required permissions. -/
def Perms.hasAll (p : Perms) : Bool :=
  p.viewChannel && p.connect && p.speak

/-- A resolved channel: its id, the guild it belongs to, and the permission
set of the bot member in it. -/
structure Channel where
  id : String
  guildId : String
  perms : Perms
deriving DecidableEq, Repr

/-- The mutable fields of a VoiceConnection instance relevant to behaviour:
the configured channel id and the lazily written guildId, player and
resource fields (all three start null). -/
structure Session where
  channelId : String
  guildId : Option String
  player : Option Player
  resource : Option Resource
deriving DecidableEq, Repr

/-- Combined state: the session fields plus the library registry of
connections keyed by guild id. -/
structure World where
  session : Session
  conns : List (String × Connection)
deriving DecidableEq, Repr

/-- The channel directory service: client.channels.fetch, which either
resolves a channel or rejects with an error message. -/
structure Dir where
  fetch : String → Except String Channel

/-- getVoiceConnection of the voice library: registry lookup by guild id. -/
def getVoiceConnection (conns : List (String × Connection)) (guildId : String) :
    Option Connection :=
  conns.lookup guildId

/-- Variant A reads getVoiceConnection(this.guildId) directly; when guildId
is still null the registry (keyed by guild id strings) holds nothing for
it, which the bind models. -/
def getConnA (w : World) : Option Connection :=
  w.session.guildId.bind (getVoiceConnection w.conns)

/-- Variant B helper getConnection: null when guildId is null, otherwise
the registry lookup. -/
def getConnection (w : World) : Option Connection :=
  w.session.guildId.bind (getVoiceConnection w.conns)

/-- Truth of connection and connection.state.status === Ready. -/
def isReadyConn : Option Connection → Bool
  | some c => c.status == .Ready
  | none => false

/-- Variant B helper isConnectionReady. -/
def isConnectionReady (w : World) : Bool :=
  isReadyConn (getConnection w)

/-- Values a resolved promise of the wrapper can carry. -/
inductive Val where
  | unit
  | bool (b : Bool)
  | vol (q : Rat)
  | emitter
deriving DecidableEq, Repr

/-- Outcome of one wrapper operation: ok and err are resolutions and tagged
rejections; libError is a rejection with the raw error object forwarded
from the voice library error event; nullAccess is the TypeError raised by
reading state of a null player field. -/
inductive Outcome where
  | ok (v : Val)
  | err (e : VCError)
  | libError (msg : String)
  | nullAccess
deriving DecidableEq, Repr

/-- Whether the outcome is a failure that is not the tagged error kind. -/
def untagged : Outcome → Bool
  | .libError _ => true
  | .nullAccess => true
  | _ => false

/-- Observable view of an outcome: success value or error code, the message
field of tagged errors discarded. -/
inductive Obs where
  | ok (v : Val)
  | code (c : ErrorCode)
  | lib (msg : String)
  | nullAcc
deriving DecidableEq, Repr

/-- Project an outcome to its observable view. -/
def Outcome.obs : Outcome → Obs
  | .ok v => .ok v
  | .err e => .code e.code
  | .libError m => .lib m
  | .nullAccess => .nullAcc

/-- What the freshly requested connection emits after joinVoiceChannel:
its one-shot Ready event, or its one-shot error event with a message. -/
inductive JoinSignal where
  | ready
  | errored (msg : String)
deriving DecidableEq, Repr

/-- Result of one operation: the state afterwards, the promise outcome, and
whether joinVoiceChannel was invoked during it. -/
structure Res where
  world : World
  outcome : Outcome
  calledJoinVoice : Bool
deriving DecidableEq, Repr

/-- Write the guildId field of the session. -/
def setGuild (w : World) (g : String) : World :=
  { w with session := { w.session with guildId := some g } }

/-- Upsert the registry entry for a guild (joinVoiceChannel registers the
connection for that guild). -/
def setConn (w : World) (g : String) (c : Connection) : World :=
  { w with conns := (g, c) :: w.conns.filter (fun p => p.1 != g) }

/-- Remove the registry entry for the session guild (connection.destroy
unregisters the connection). -/
def removeConn (w : World) : World :=
  match w.session.guildId with
  | some g => { w with conns := w.conns.filter (fun p => p.1 != g) }
  | none => w

/-- Overwrite the status of the stored player after an awaited transition. -/
def setPlayerStatus (w : World) (st : PlayerStatus) : World :=
  { w with session := { w.session with player := w.session.player.map (fun _ => ⟨st⟩) } }

/-- Variant A join (src/VoiceConnection.js lines 39 to 66): fetch the
channel, record guildId, resolve at once on an existing Ready connection,
otherwise check permissions and either reject MISSING_PERMISSIONS or call
joinVoiceChannel and await Ready (resolve) or the error event, which is
forwarded raw to reject. Fetch failure rejects NO_CHANNEL with the
underlying message. -/
def joinA (dir : Dir) (sig : JoinSignal) (w : World) : Res :=
  match dir.fetch w.session.channelId with
  | .error msg => ⟨w, .err (mkErrorA .NO_CHANNEL (some msg)), false⟩
  | .ok ch =>
    let w1 := setGuild w ch.guildId
    if isReadyConn (getVoiceConnection w1.conns ch.guildId) then
      ⟨w1, .ok .unit, false⟩
    else if ch.perms.hasAll then
      match sig with
      | .ready => ⟨setConn w1 ch.guildId ⟨.Ready⟩, .ok .unit, true⟩
      | .errored msg => ⟨setConn w1 ch.guildId ⟨.Signalling⟩, .libError msg, true⟩
    else
      ⟨w1, .err (mkErrorA .MISSING_PERMISSIONS none), false⟩

/-- Variant B join (src/unnamed/part_000 lines 89 to 118): same shape, but
the whole body sits in a try block whose catch rethrows NO_CHANNEL carrying
err.message; the internally thrown MISSING_PERMISSIONS error and the
rejection of the awaited error event are therefore both surfaced as
NO_CHANNEL. -/
def joinB (dir : Dir) (sig : JoinSignal) (w : World) : Res :=
  match dir.fetch w.session.channelId with
  | .error msg => ⟨w, .err (mkErrorB .NO_CHANNEL (some msg)), false⟩
  | .ok ch =>
    let w1 := setGuild w ch.guildId
    if isConnectionReady w1 then
      ⟨w1, .ok .unit, false⟩
    else if !ch.perms.hasAll then
      ⟨w1, .err (mkErrorB .NO_CHANNEL (mkErrorB .MISSING_PERMISSIONS none).message), false⟩
    else
      match sig with
      | .ready => ⟨setConn w1 ch.guildId ⟨.Ready⟩, .ok .unit, true⟩
      | .errored msg => ⟨setConn w1 ch.guildId ⟨.Signalling⟩, .err (mkErrorB .NO_CHANNEL (some msg)), true⟩

/-- Variant A destroy: reject NO_CONNECTION when the registry holds nothing
for the session guild, otherwise destroy and await Destroyed. -/
def destroyA (w : World) : Res :=
  match getConnA w with
  | some _ => ⟨removeConn w, .ok .unit, false⟩
  | none => ⟨w, .err (mkErrorA .NO_CONNECTION none), false⟩

/-- Variant B destroy: same via the getConnection helper. -/
def destroyB (w : World) : Res :=
  match getConnection w with
  | some _ => ⟨removeConn w, .ok .unit, false⟩
  | none => ⟨w, .err (mkErrorB .NO_CONNECTION none), false⟩

/-- Effect of a successful play: a fresh resource at the requested volume
and a fresh player, replacing the stored handles. -/
def startPlayback (w : World) (volume : Rat) : World :=
  { w with session := { w.session with
      resource := some ⟨volume⟩
      player := some ⟨.Playing⟩ } }

/-- Variant A play: NO_CONNECTION without a connection, CONNECTION_NOT_READY
unless Ready, otherwise create resource and player, resolve the emitter,
start playback and subscribe. -/
def playA (w : World) (volume : Rat) : Res :=
  match getConnA w with
  | some c =>
    if c.status == .Ready then ⟨startPlayback w volume, .ok .emitter, false⟩
    else ⟨w, .err (mkErrorA .CONNECTION_NOT_READY none), false⟩
  | none => ⟨w, .err (mkErrorA .NO_CONNECTION none), false⟩

/-- Variant B play: a single isConnectionReady gate, so a missing connection
also surfaces CONNECTION_NOT_READY. -/
def playB (w : World) (volume : Rat) : Res :=
  if isConnectionReady w then ⟨startPlayback w volume, .ok .emitter, false⟩
  else ⟨w, .err (mkErrorB .CONNECTION_NOT_READY none), false⟩

/-- Variant A pause: NO_CONNECTION or CONNECTION_NOT_READY guards, then
this.player.state.status is read (TypeError when player is null); already
Paused rejects PLAYER_ALREADY_PAUSED or resolves per the flag, otherwise
pause and await Paused. -/
def pauseA (w : World) (rejectIfAlreadyPaused : Bool) : Res :=
  match getConnA w with
  | some c =>
    if c.status == .Ready then
      match w.session.player with
      | none => ⟨w, .nullAccess, false⟩
      | some p =>
        if p.status == .Paused then
          if rejectIfAlreadyPaused then ⟨w, .err (mkErrorA .PLAYER_ALREADY_PAUSED none), false⟩
          else ⟨w, .ok .unit, false⟩
        else ⟨setPlayerStatus w .Paused, .ok .unit, false⟩
    else ⟨w, .err (mkErrorA .CONNECTION_NOT_READY none), false⟩
  | none => ⟨w, .err (mkErrorA .NO_CONNECTION none), false⟩

/-- Variant B pause: isConnectionReady gate then the same player logic. -/
def pauseB (w : World) (rejectIfAlreadyPaused : Bool) : Res :=
  if !isConnectionReady w then ⟨w, .err (mkErrorB .CONNECTION_NOT_READY none), false⟩
  else
    match w.session.player with
    | none => ⟨w, .nullAccess, false⟩
    | some p =>
      if p.status == .Paused then
        if rejectIfAlreadyPaused then ⟨w, .err (mkErrorB .PLAYER_ALREADY_PAUSED none), false⟩
        else ⟨w, .ok .unit, false⟩
      else ⟨setPlayerStatus w .Paused, .ok .unit, false⟩

/-- Variant A unpause: guards as pause; a Paused player is resumed awaiting
Playing, otherwise PLAYER_NOT_PAUSED or a no-op per the flag. -/
def unpauseA (w : World) (rejectIfNotPaused : Bool) : Res :=
  match getConnA w with
  | some c =>
    if c.status == .Ready then
      match w.session.player with
      | none => ⟨w, .nullAccess, false⟩
      | some p =>
        if p.status == .Paused then ⟨setPlayerStatus w .Playing, .ok .unit, false⟩
        else if rejectIfNotPaused then ⟨w, .err (mkErrorA .PLAYER_NOT_PAUSED none), false⟩
        else ⟨w, .ok .unit, false⟩
    else ⟨w, .err (mkErrorA .CONNECTION_NOT_READY none), false⟩
  | none => ⟨w, .err (mkErrorA .NO_CONNECTION none), false⟩

/-- Variant B unpause: isConnectionReady gate then the same player logic. -/
def unpauseB (w : World) (rejectIfNotPaused : Bool) : Res :=
  if !isConnectionReady w then ⟨w, .err (mkErrorB .CONNECTION_NOT_READY none), false⟩
  else
    match w.session.player with
    | none => ⟨w, .nullAccess, false⟩
    | some p =>
      if p.status == .Paused then ⟨setPlayerStatus w .Playing, .ok .unit, false⟩
      else if rejectIfNotPaused then ⟨w, .err (mkErrorB .PLAYER_NOT_PAUSED none), false⟩
      else ⟨w, .ok .unit, false⟩

/-- Variant A isPaused: guards, then resolve whether the player status is
Paused (TypeError when player is null). -/
def isPausedA (w : World) : Res :=
  match getConnA w with
  | some c =>
    if c.status == .Ready then
      match w.session.player with
      | none => ⟨w, .nullAccess, false⟩
      | some p => ⟨w, .ok (.bool (p.status == .Paused)), false⟩
    else ⟨w, .err (mkErrorA .CONNECTION_NOT_READY none), false⟩
  | none => ⟨w, .err (mkErrorA .NO_CONNECTION none), false⟩

/-- Variant B isPaused: isConnectionReady gate then the same read. -/
def isPausedB (w : World) : Res :=
  if !isConnectionReady w then ⟨w, .err (mkErrorB .CONNECTION_NOT_READY none), false⟩
  else
    match w.session.player with
    | none => ⟨w, .nullAccess, false⟩
    | some p => ⟨w, .ok (.bool (p.status == .Paused)), false⟩

/-- Variant A getVolume: guards, NO_RESOURCE when the resource field is
null, otherwise resolve the stored volume. -/
def getVolumeA (w : World) : Res :=
  match getConnA w with
  | some c =>
    if c.status == .Ready then
      match w.session.resource with
      | some r => ⟨w, .ok (.vol r.volume), false⟩
      | none => ⟨w, .err (mkErrorA .NO_RESOURCE none), false⟩
    else ⟨w, .err (mkErrorA .CONNECTION_NOT_READY none), false⟩
  | none => ⟨w, .err (mkErrorA .NO_CONNECTION none), false⟩

/-- Variant B getVolume: isConnectionReady gate then the same read. -/
def getVolumeB (w : World) : Res :=
  if !isConnectionReady w then ⟨w, .err (mkErrorB .CONNECTION_NOT_READY none), false⟩
  else
    match w.session.resource with
    | some r => ⟨w, .ok (.vol r.volume), false⟩
    | none => ⟨w, .err (mkErrorB .NO_RESOURCE none), false⟩

/-- Variant A setVolume: guards, NO_RESOURCE when the resource field is
null, otherwise write the volume control and resolve. -/
def setVolumeA (w : World) (volume : Rat) : Res :=
  match getConnA w with
  | some c =>
    if c.status == .Ready then
      match w.session.resource with
      | some _ =>
        ⟨{ w with session := { w.session with resource := some ⟨volume⟩ } }, .ok .unit, false⟩
      | none => ⟨w, .err (mkErrorA .NO_RESOURCE none), false⟩
    else ⟨w, .err (mkErrorA .CONNECTION_NOT_READY none), false⟩
  | none => ⟨w, .err (mkErrorA .NO_CONNECTION none), false⟩

/-- Variant B setVolume: isConnectionReady gate then the same write. -/
def setVolumeB (w : World) (volume : Rat) : Res :=
  if !isConnectionReady w then ⟨w, .err (mkErrorB .CONNECTION_NOT_READY none), false⟩
  else
    match w.session.resource with
    | some _ =>
      ⟨{ w with session := { w.session with resource := some ⟨volume⟩ } }, .ok .unit, false⟩
    | none => ⟨w, .err (mkErrorB .NO_RESOURCE none), false⟩

/-- One operation of the wrapper surface, with the scripted library
response where the operation awaits one. -/
inductive Op where
  | join (sig : JoinSignal)
  | destroy
  | play (volume : Rat)
  | pause (flag : Bool)
  | unpause (flag : Bool)
  | isPausedOp
  | getVolumeOp
  | setVolumeOp (volume : Rat)
deriving DecidableEq, Repr

/-- Whether the operation is a join. -/
def Op.isJoin : Op → Bool
  | .join _ => true
  | _ => false

/-- Dispatch one operation through variant A. -/
def stepA (dir : Dir) (w : World) : Op → Res
  | .join sig => joinA dir sig w
  | .destroy => destroyA w
  | .play v => playA w v
  | .pause f => pauseA w f
  | .unpause f => unpauseA w f
  | .isPausedOp => isPausedA w
  | .getVolumeOp => getVolumeA w
  | .setVolumeOp v => setVolumeA w v

/-- Dispatch one operation through variant B. -/
def stepB (dir : Dir) (w : World) : Op → Res
  | .join sig => joinB dir sig w
  | .destroy => destroyB w
  | .play v => playB w v
  | .pause f => pauseB w f
  | .unpause f => unpauseB w f
  | .isPausedOp => isPausedB w
  | .getVolumeOp => getVolumeB w
  | .setVolumeOp v => setVolumeB w v

/-- Run a sequence of operations through variant A, keeping the state. -/
def runA (dir : Dir) : World → List Op → World
  | w, [] => w
  | w, op :: ops => runA dir (stepA dir w op).world ops

/-- A fresh session for a channel: guildId, player and resource null. -/
def initWorld (channelId : String) : World :=
  { session := { channelId := channelId, guildId := none, player := none, resource := none }
    conns := [] }

/-- A channel in guild1 with all three permissions. -/
def chOk : Channel :=
  { id := "chan1", guildId := "guild1"
    perms := { viewChannel := true, connect := true, speak := true } }

/-- The same channel with the SPEAK permission missing. -/
def chNoSpeak : Channel :=
  { id := "chan1", guildId := "guild1"
    perms := { viewChannel := true, connect := true, speak := false } }

/-- Directory resolving every id to the fully permitted channel. -/
def dirOk : Dir := { fetch := fun _ => .ok chOk }

/-- Directory resolving every id to the channel lacking SPEAK. -/
def dirNoSpeak : Dir := { fetch := fun _ => .ok chNoSpeak }

/-- A fresh session targeting chan1. -/
def w0 : World := initWorld "chan1"

/-- A session after a completed join: guild recorded, Ready connection in
the registry, no play yet. -/
def wReady : World :=
  { session := { channelId := "chan1", guildId := some "guild1", player := none, resource := none }
    conns := [("guild1", ⟨.Ready⟩)] }

/-- A joined session whose player is Paused. -/
def wReadyPaused : World :=
  { session := { channelId := "chan1", guildId := some "guild1"
                 player := some ⟨.Paused⟩, resource := some ⟨1⟩ }
    conns := [("guild1", ⟨.Ready⟩)] }

/-- The run on which the C4 invariant breaks: a completed join, one play,
then destroy. -/
def c4trace : List Op := [.join .ready, .play 1, .destroy]

/-- A joined session whose player is Playing. -/
def wReadyPlaying : World :=
  { session := { channelId := "chan1", guildId := some "guild1"
                 player := some ⟨.Playing⟩, resource := some ⟨1⟩ }
    conns := [("guild1", ⟨.Ready⟩)] }

end DiscordVoice

namespace DiscordVoice

/-- Both variants read the registry through the same guildId bind. -/
theorem getConnA_eq (w : World) : getConnA w = getConnection w := rfl

/-- C1 counterexample: on a fresh session (join never called, no connection
in the registry), variant A getVolume rejects with NO_CONNECTION, not
CONNECTION_NOT_READY as the claim states. -/
theorem C1_counterexample :
    (getVolumeA w0).outcome = .err (mkErrorA .NO_CONNECTION none) ∧
    mkErrorA .NO_CONNECTION none ≠ mkErrorA .CONNECTION_NOT_READY none := by
  decide

/-- C1 (amended): with the connection Ready and no stored resource,
getVolume and setVolume fail with NO_RESOURCE in both variants; when no
connection exists for the session guild (in particular before any join),
variant A fails with NO_CONNECTION while variant B fails with
CONNECTION_NOT_READY; when a connection exists but is not Ready, both
variants fail with CONNECTION_NOT_READY. -/
theorem C1_volume_guards (w : World) (v : Rat) :
    (∀ c, getConnection w = some c → c.status = .Ready → w.session.resource = none →
      (getVolumeA w).outcome = .err (mkErrorA .NO_RESOURCE none) ∧
      (setVolumeA w v).outcome = .err (mkErrorA .NO_RESOURCE none) ∧
      (getVolumeB w).outcome = .err (mkErrorB .NO_RESOURCE none) ∧
      (setVolumeB w v).outcome = .err (mkErrorB .NO_RESOURCE none)) ∧
    (getConnection w = none →
      (getVolumeA w).outcome = .err (mkErrorA .NO_CONNECTION none) ∧
      (setVolumeA w v).outcome = .err (mkErrorA .NO_CONNECTION none) ∧
      (getVolumeB w).outcome = .err (mkErrorB .CONNECTION_NOT_READY none) ∧
      (setVolumeB w v).outcome = .err (mkErrorB .CONNECTION_NOT_READY none)) ∧
    (∀ c, getConnection w = some c → c.status ≠ .Ready →
      (getVolumeA w).outcome = .err (mkErrorA .CONNECTION_NOT_READY none) ∧
      (setVolumeA w v).outcome = .err (mkErrorA .CONNECTION_NOT_READY none) ∧
      (getVolumeB w).outcome = .err (mkErrorB .CONNECTION_NOT_READY none) ∧
      (setVolumeB w v).outcome = .err (mkErrorB .CONNECTION_NOT_READY none)) := by
  refine ⟨?_, ?_, ?_⟩
  · intro c hc hr hres
    simp [getVolumeA, setVolumeA, getVolumeB, setVolumeB, getConnA_eq, hc, hr, hres,
      isConnectionReady, isReadyConn]
  · intro hc
    simp [getVolumeA, setVolumeA, getVolumeB, setVolumeB, getConnA_eq, hc,
      isConnectionReady, isReadyConn]
  · intro c hc hr
    simp [getVolumeA, setVolumeA, getVolumeB, setVolumeB, getConnA_eq, hc, hr,
      isConnectionReady, isReadyConn]

/-- Witness for C1_volume_guards at the fresh session. -/
theorem C1_volume_guards_witness :
    (getVolumeA w0).outcome = .err (mkErrorA .NO_CONNECTION none) ∧
    (getVolumeB w0).outcome = .err (mkErrorB .CONNECTION_NOT_READY none) :=
  ⟨((C1_volume_guards w0 1).2.1 rfl).1, ((C1_volume_guards w0 1).2.1 rfl).2.2.1⟩

/-- C2: at the failing input (channel resolves, permission set lacks SPEAK,
no existing connection), variant A rejects with code MISSING_PERMISSIONS as
the claim states, but the catch block of variant B wraps its own
MISSING_PERMISSIONS throw and surfaces code NO_CHANNEL instead. -/
theorem C2_missing_permissions_eval :
    (joinA dirNoSpeak .ready w0).outcome = .err (mkErrorA .MISSING_PERMISSIONS none) ∧
    (joinB dirNoSpeak .ready w0).outcome =
      .err { code := .NO_CHANNEL, message := some "The client does not have permissions." } := by
  decide

/-- C5 counterexample: a join that fails with MISSING_PERMISSIONS still
writes the guild id: from a fresh session (guildId null), variant A join on
a channel lacking SPEAK rejects, yet guildId is set afterwards. -/
theorem C5_counterexample :
    w0.session.guildId = none ∧
    (joinA dirNoSpeak .ready w0).outcome = .err (mkErrorA .MISSING_PERMISSIONS none) ∧
    (joinA dirNoSpeak .ready w0).world.session.guildId = some "guild1" := by
  decide

/-- C5 (amended): guildId is written by every join whose channel fetch
succeeds, whether or not the join then fails; only a join failing at
channel resolution leaves guildId unchanged. Holds for both variants. -/
theorem C5_guildId_update (dir : Dir) (sig : JoinSignal) (w : World) :
    (∀ msg, dir.fetch w.session.channelId = .error msg →
      (joinA dir sig w).world.session.guildId = w.session.guildId ∧
      (joinB dir sig w).world.session.guildId = w.session.guildId) ∧
    (∀ ch, dir.fetch w.session.channelId = .ok ch →
      (joinA dir sig w).world.session.guildId = some ch.guildId ∧
      (joinB dir sig w).world.session.guildId = some ch.guildId) := by
  constructor
  · intro msg hmsg
    simp [joinA, joinB, hmsg]
  · intro ch hch
    rcases Bool.eq_false_or_eq_true ch.perms.hasAll with hb | hb <;>
      cases sig <;>
      simp [joinA, joinB, hch, hb, setGuild, setConn, isConnectionReady, getConnection,
        isReadyConn] <;>
      (try constructor) <;>
      first
        | rfl
        | (split <;> rfl)

/-- Witness for C5_guildId_update on the permission failure run. -/
theorem C5_guildId_update_witness :
    (joinA dirNoSpeak .ready w0).world.session.guildId = some chNoSpeak.guildId ∧
    (joinB dirNoSpeak .ready w0).world.session.guildId = some chNoSpeak.guildId :=
  (C5_guildId_update dirNoSpeak .ready w0).2 chNoSpeak rfl

/-- C6 counterexample: variant A builds the PLAYER_NOT_PAUSED error with no
message argument and its message table has no entry for that code, so the
error an unpause on a non-paused player rejects with has no message. -/
theorem C6_counterexample :
    (unpauseA wReadyPlaying true).outcome =
      .err { code := .PLAYER_NOT_PAUSED, message := none } := by
  decide

/-- C6 (amended): every code except PLAYER_NOT_PAUSED and NO_CHANNEL gets a
fixed non-empty message from the table in both variants; PLAYER_NOT_PAUSED
has a fixed non-empty message in variant B but falls through to the passed
message in variant A (none at its only construction site); NO_CHANNEL
carries the passed-through underlying message in both variants. -/
theorem C6_message_table (c : ErrorCode) (m : Option String) :
    (c ≠ .PLAYER_NOT_PAUSED → c ≠ .NO_CHANNEL →
      ∃ s t, (mkErrorA c m).message = some s ∧ s ≠ "" ∧
        (mkErrorB c m).message = some t ∧ t ≠ "") ∧
    (mkErrorB .PLAYER_NOT_PAUSED m).message = some "The player is not paused." ∧
    (mkErrorA .PLAYER_NOT_PAUSED m).message = m ∧
    (mkErrorA .NO_CHANNEL m).message = m ∧
    (mkErrorB .NO_CHANNEL m).message = m := by
  refine ⟨?_, rfl, rfl, rfl, rfl⟩
  intro h1 h2
  cases c <;> simp_all [mkErrorA, mkErrorB, messagesA, messagesB]

/-- Witness for C6_message_table at the NO_RESOURCE code. -/
theorem C6_message_table_witness :
    ∃ s t, (mkErrorA .NO_RESOURCE none).message = some s ∧ s ≠ "" ∧
      (mkErrorB .NO_RESOURCE none).message = some t ∧ t ≠ "" :=
  (C6_message_table .NO_RESOURCE none).1 (by decide) (by decide)

end DiscordVoice

namespace DiscordVoice

/-- C7: join is idempotent on success: when the registry already holds a
Ready connection for the fetched channel guild, join resolves with no error
and does not invoke joinVoiceChannel, in both variants. -/
theorem C7_join_idempotent (dir : Dir) (sig : JoinSignal) (w : World)
    (ch : Channel) (c : Connection)
    (hfetch : dir.fetch w.session.channelId = .ok ch)
    (hconn : getVoiceConnection w.conns ch.guildId = some c)
    (hready : c.status = .Ready) :
    (joinA dir sig w).outcome = .ok .unit ∧
    (joinA dir sig w).calledJoinVoice = false ∧
    (joinB dir sig w).outcome = .ok .unit ∧
    (joinB dir sig w).calledJoinVoice = false := by
  simp [joinA, joinB, hfetch, setGuild, isConnectionReady, getConnection, isReadyConn,
    hconn, hready]

/-- Witness for C7_join_idempotent on the joined session. -/
theorem C7_join_idempotent_witness :
    (joinA dirOk .ready wReady).outcome = .ok .unit ∧
    (joinA dirOk .ready wReady).calledJoinVoice = false ∧
    (joinB dirOk .ready wReady).outcome = .ok .unit ∧
    (joinB dirOk .ready wReady).calledJoinVoice = false :=
  C7_join_idempotent dirOk .ready wReady chOk ⟨.Ready⟩ rfl rfl rfl

/-- C8: with the connection Ready and a player stored, pause on an already
paused player fails with PLAYER_ALREADY_PAUSED when the flag is true and
no-ops when it is false; unpause on a non-paused player fails with
PLAYER_NOT_PAUSED when the flag is true and no-ops when it is false; in
both variants. -/
theorem C8_pause_unpause_flags (w : World) (c : Connection) (p : Player)
    (hc : getConnection w = some c) (hr : c.status = .Ready)
    (hp : w.session.player = some p) :
    (p.status = .Paused →
      (pauseA w true).outcome = .err (mkErrorA .PLAYER_ALREADY_PAUSED none) ∧
      (pauseB w true).outcome = .err (mkErrorB .PLAYER_ALREADY_PAUSED none) ∧
      (pauseA w false).outcome = .ok .unit ∧ (pauseA w false).world = w ∧
      (pauseB w false).outcome = .ok .unit ∧ (pauseB w false).world = w) ∧
    (p.status ≠ .Paused →
      (unpauseA w true).outcome = .err (mkErrorA .PLAYER_NOT_PAUSED none) ∧
      (unpauseB w true).outcome = .err (mkErrorB .PLAYER_NOT_PAUSED none) ∧
      (unpauseA w false).outcome = .ok .unit ∧ (unpauseA w false).world = w ∧
      (unpauseB w false).outcome = .ok .unit ∧ (unpauseB w false).world = w) := by
  constructor
  · intro hst
    simp [pauseA, pauseB, getConnA_eq, hc, hr, hp, hst, isConnectionReady, isReadyConn]
  · intro hst
    simp [unpauseA, unpauseB, getConnA_eq, hc, hr, hp, hst, isConnectionReady, isReadyConn]

/-- Witness for C8_pause_unpause_flags on the paused and playing sessions. -/
theorem C8_pause_unpause_flags_witness :
    (pauseA wReadyPaused true).outcome = .err (mkErrorA .PLAYER_ALREADY_PAUSED none) ∧
    (unpauseA wReadyPlaying true).outcome = .err (mkErrorA .PLAYER_NOT_PAUSED none) :=
  ⟨((C8_pause_unpause_flags wReadyPaused ⟨.Ready⟩ ⟨.Paused⟩ rfl rfl rfl).1 rfl).1,
   ((C8_pause_unpause_flags wReadyPlaying ⟨.Ready⟩ ⟨.Playing⟩ rfl rfl rfl).2 (by decide)).1⟩

/-- C10 counterexample: with no connection (fresh session), variant B play
rejects CONNECTION_NOT_READY rather than NO_CONNECTION. -/
theorem C10_counterexample :
    (playB w0 1).outcome = .err (mkErrorB .CONNECTION_NOT_READY none) ∧
    mkErrorB .CONNECTION_NOT_READY none ≠ mkErrorB .NO_CONNECTION none := by
  decide

/-- C10 (amended): when the voice library holds no connection for the
session guild (including guildId still null), every operation of variant A
other than join fails with NO_CONNECTION; in variant B only destroy does,
while play, pause, unpause, isPaused, getVolume and setVolume fail with
CONNECTION_NOT_READY. -/
theorem C10_no_connection_guards (w : World) (v : Rat) (f : Bool)
    (h : getConnection w = none) :
    (destroyA w).outcome = .err (mkErrorA .NO_CONNECTION none) ∧
    (playA w v).outcome = .err (mkErrorA .NO_CONNECTION none) ∧
    (pauseA w f).outcome = .err (mkErrorA .NO_CONNECTION none) ∧
    (unpauseA w f).outcome = .err (mkErrorA .NO_CONNECTION none) ∧
    (isPausedA w).outcome = .err (mkErrorA .NO_CONNECTION none) ∧
    (getVolumeA w).outcome = .err (mkErrorA .NO_CONNECTION none) ∧
    (setVolumeA w v).outcome = .err (mkErrorA .NO_CONNECTION none) ∧
    (destroyB w).outcome = .err (mkErrorB .NO_CONNECTION none) ∧
    (playB w v).outcome = .err (mkErrorB .CONNECTION_NOT_READY none) ∧
    (pauseB w f).outcome = .err (mkErrorB .CONNECTION_NOT_READY none) ∧
    (unpauseB w f).outcome = .err (mkErrorB .CONNECTION_NOT_READY none) ∧
    (isPausedB w).outcome = .err (mkErrorB .CONNECTION_NOT_READY none) ∧
    (getVolumeB w).outcome = .err (mkErrorB .CONNECTION_NOT_READY none) ∧
    (setVolumeB w v).outcome = .err (mkErrorB .CONNECTION_NOT_READY none) := by
  simp [destroyA, destroyB, playA, playB, pauseA, pauseB, unpauseA, unpauseB,
    isPausedA, isPausedB, getVolumeA, getVolumeB, setVolumeA, setVolumeB,
    getConnA_eq, h, isConnectionReady, isReadyConn]

/-- Witness for C10_no_connection_guards on the fresh session. -/
theorem C10_no_connection_guards_witness :
    (destroyA w0).outcome = .err (mkErrorA .NO_CONNECTION none) :=
  (C10_no_connection_guards w0 1 true rfl).1

end DiscordVoice

namespace DiscordVoice

/-- A join that sees the Ready signal never rejects untagged in variant A. -/
theorem untagged_joinA_ready (dir : Dir) (w : World) :
    untagged (joinA dir .ready w).outcome = false := by
  simp only [joinA]
  repeat' split
  all_goals rfl

/-- Variant B join never rejects untagged: its catch tags everything. -/
theorem untagged_joinB (dir : Dir) (sig : JoinSignal) (w : World) :
    untagged (joinB dir sig w).outcome = false := by
  simp only [joinB]
  repeat' split
  all_goals rfl

/-- Variant A destroy never rejects untagged. -/
theorem untagged_destroyA (w : World) : untagged (destroyA w).outcome = false := by
  simp only [destroyA]
  repeat' split
  all_goals rfl

/-- Variant B destroy never rejects untagged. -/
theorem untagged_destroyB (w : World) : untagged (destroyB w).outcome = false := by
  simp only [destroyB]
  repeat' split
  all_goals rfl

/-- Variant A play never rejects untagged. -/
theorem untagged_playA (w : World) (v : Rat) : untagged (playA w v).outcome = false := by
  simp only [playA]
  repeat' split
  all_goals rfl

/-- Variant B play never rejects untagged. -/
theorem untagged_playB (w : World) (v : Rat) : untagged (playB w v).outcome = false := by
  simp only [playB]
  repeat' split
  all_goals rfl

/-- Variant A getVolume never rejects untagged. -/
theorem untagged_getVolumeA (w : World) : untagged (getVolumeA w).outcome = false := by
  simp only [getVolumeA]
  repeat' split
  all_goals rfl

/-- Variant B getVolume never rejects untagged. -/
theorem untagged_getVolumeB (w : World) : untagged (getVolumeB w).outcome = false := by
  simp only [getVolumeB]
  repeat' split
  all_goals rfl

/-- Variant A setVolume never rejects untagged. -/
theorem untagged_setVolumeA (w : World) (v : Rat) :
    untagged (setVolumeA w v).outcome = false := by
  simp only [setVolumeA]
  repeat' split
  all_goals rfl

/-- Variant B setVolume never rejects untagged. -/
theorem untagged_setVolumeB (w : World) (v : Rat) :
    untagged (setVolumeB w v).outcome = false := by
  simp only [setVolumeB]
  repeat' split
  all_goals rfl

/-- Variant A pause rejects untagged only through the null player. -/
theorem untagged_pauseA_player (w : World) (f : Bool) (p : Player)
    (hp : w.session.player = some p) : untagged (pauseA w f).outcome = false := by
  simp only [pauseA, hp]
  repeat' split
  all_goals rfl

/-- Variant B pause rejects untagged only through the null player. -/
theorem untagged_pauseB_player (w : World) (f : Bool) (p : Player)
    (hp : w.session.player = some p) : untagged (pauseB w f).outcome = false := by
  simp only [pauseB, hp]
  repeat' split
  all_goals rfl

/-- Variant A unpause rejects untagged only through the null player. -/
theorem untagged_unpauseA_player (w : World) (f : Bool) (p : Player)
    (hp : w.session.player = some p) : untagged (unpauseA w f).outcome = false := by
  simp only [unpauseA, hp]
  repeat' split
  all_goals rfl

/-- Variant B unpause rejects untagged only through the null player. -/
theorem untagged_unpauseB_player (w : World) (f : Bool) (p : Player)
    (hp : w.session.player = some p) : untagged (unpauseB w f).outcome = false := by
  simp only [unpauseB, hp]
  repeat' split
  all_goals rfl

/-- Variant A isPaused rejects untagged only through the null player. -/
theorem untagged_isPausedA_player (w : World) (p : Player)
    (hp : w.session.player = some p) : untagged (isPausedA w).outcome = false := by
  simp only [isPausedA, hp]
  repeat' split
  all_goals rfl

/-- Variant B isPaused rejects untagged only through the null player. -/
theorem untagged_isPausedB_player (w : World) (p : Player)
    (hp : w.session.player = some p) : untagged (isPausedB w).outcome = false := by
  simp only [isPausedB, hp]
  repeat' split
  all_goals rfl

/-- C3 counterexample: when the library emits the error event during a
variant A join (channel ok, permissions ok, no ready connection), the
promise is rejected with the raw library error value, not the tagged kind. -/
theorem C3_counterexample :
    (joinA dirOk (.errored "udp error") w0).outcome = .libError "udp error" ∧
    untagged (joinA dirOk (.errored "udp error") w0).outcome = true := by
  decide

/-- C3 (amended): a failure that is not the tagged error kind arises only
from variant A join forwarding the library error event, or from pause,
unpause or isPaused dereferencing the null player field (possible in both
variants once the connection is Ready but play has not run); every other
failure of every operation is the tagged error kind. -/
theorem C3_untagged_characterization (dir : Dir) (w : World) (op : Op)
    (h : untagged (stepA dir w op).outcome = true ∨
         untagged (stepB dir w op).outcome = true) :
    (∃ msg, op = .join (.errored msg)) ∨
    (w.session.player = none ∧
      ((∃ f, op = .pause f) ∨ (∃ f, op = .unpause f) ∨ op = .isPausedOp)) := by
  cases op with
  | join sig =>
    cases sig with
    | ready =>
      simp only [stepA, stepB] at h
      simp [untagged_joinA_ready, untagged_joinB] at h
    | errored msg => exact Or.inl ⟨msg, rfl⟩
  | destroy =>
    simp only [stepA, stepB] at h
    simp [untagged_destroyA, untagged_destroyB] at h
  | play v =>
    simp only [stepA, stepB] at h
    simp [untagged_playA, untagged_playB] at h
  | pause f =>
    cases hp : w.session.player with
    | none => exact Or.inr ⟨rfl, Or.inl ⟨f, rfl⟩⟩
    | some p =>
      simp only [stepA, stepB] at h
      simp [untagged_pauseA_player w f p hp, untagged_pauseB_player w f p hp] at h
  | unpause f =>
    cases hp : w.session.player with
    | none => exact Or.inr ⟨rfl, Or.inr (Or.inl ⟨f, rfl⟩)⟩
    | some p =>
      simp only [stepA, stepB] at h
      simp [untagged_unpauseA_player w f p hp, untagged_unpauseB_player w f p hp] at h
  | isPausedOp =>
    cases hp : w.session.player with
    | none => exact Or.inr ⟨rfl, Or.inr (Or.inr rfl)⟩
    | some p =>
      simp only [stepA, stepB] at h
      simp [untagged_isPausedA_player w p hp, untagged_isPausedB_player w p hp] at h
  | getVolumeOp =>
    simp only [stepA, stepB] at h
    simp [untagged_getVolumeA, untagged_getVolumeB] at h
  | setVolumeOp v =>
    simp only [stepA, stepB] at h
    simp [untagged_setVolumeA, untagged_setVolumeB] at h

/-- Witness for C3_untagged_characterization at the error event join. -/
theorem C3_untagged_characterization_witness :
    (∃ msg, Op.join (.errored "boom") = Op.join (.errored msg)) ∨
    (w0.session.player = none ∧
      ((∃ f, Op.join (.errored "boom") = Op.pause f) ∨
       (∃ f, Op.join (.errored "boom") = Op.unpause f) ∨
       Op.join (.errored "boom") = Op.isPausedOp)) :=
  C3_untagged_characterization dirOk w0 (.join (.errored "boom")) (Or.inl (by decide))

/-- C4 counterexample: after join, play, destroy on variant A, the player
and resource handles are still non-null although the registry holds no
connection for the session guild, hence none in the Ready state. -/
theorem C4_counterexample :
    (runA dirOk w0 c4trace).session.player ≠ none ∧
    (runA dirOk w0 c4trace).session.resource ≠ none ∧
    getConnection (runA dirOk w0 c4trace) = none := by
  decide

/-- Removing the registry entry leaves the session fields untouched. -/
theorem removeConn_session (w : World) : (removeConn w).session = w.session := by
  simp only [removeConn]
  split <;> rfl

/-- Null handles of variant A stay null under every operation that is not a
play. -/
theorem stepA_preserves_null_handles (dir : Dir) (w : World) (op : Op)
    (h0 : w.session.player = none) (h1 : w.session.resource = none)
    (hnp : ∀ v, op ≠ .play v) :
    (stepA dir w op).world.session.player = none ∧
    (stepA dir w op).world.session.resource = none := by
  cases op with
  | play v => exact absurd rfl (hnp v)
  | join sig =>
    simp only [stepA, joinA]
    repeat' split
    all_goals simp [setGuild, setConn, h0, h1]
  | destroy =>
    simp only [stepA, destroyA]
    repeat' split
    all_goals simp [removeConn_session, h0, h1]
  | pause f =>
    simp only [stepA, pauseA, h0]
    repeat' split
    all_goals simp [setPlayerStatus, h0, h1]
  | unpause f =>
    simp only [stepA, unpauseA, h0]
    repeat' split
    all_goals simp [setPlayerStatus, h0, h1]
  | isPausedOp =>
    simp only [stepA, isPausedA, h0]
    repeat' split
    all_goals simp [h0, h1]
  | getVolumeOp =>
    simp only [stepA, getVolumeA, h1]
    repeat' split
    all_goals simp [h0, h1]
  | setVolumeOp v =>
    simp only [stepA, setVolumeA, h1]
    repeat' split
    all_goals simp [h0, h1]

/-- C4 (amended): the handles turn non-null only through a play performed
while the connection for the session guild is Ready; destroy does not clear
them, so they may outlive the Ready state (see the counterexample). -/
theorem C4_handles_set_only (dir : Dir) (w : World) (op : Op)
    (h0 : w.session.player = none) (h1 : w.session.resource = none)
    (h2 : (stepA dir w op).world.session.player ≠ none ∨
          (stepA dir w op).world.session.resource ≠ none) :
    (∃ v, op = .play v) ∧ isReadyConn (getConnection w) = true := by
  by_cases hp : ∀ v, op ≠ .play v
  · rcases stepA_preserves_null_handles dir w op h0 h1 hp with ⟨ha, hb⟩
    rcases h2 with h2 | h2
    · exact absurd ha h2
    · exact absurd hb h2
  · push_neg at hp
    rcases hp with ⟨v, hv⟩
    subst hv
    refine ⟨⟨v, rfl⟩, ?_⟩
    simp only [stepA, playA] at h2
    rw [← getConnA_eq]
    rcases hc : getConnA w with _ | c
    · simp [hc, h0, h1] at h2
    · simp only [hc] at h2
      by_cases hs : (c.status == ConnStatus.Ready) = true
      · simpa [isReadyConn] using hs
      · simp [hs, h0, h1] at h2

/-- Witness for C4_handles_set_only: a play on the joined Ready session. -/
theorem C4_handles_set_only_witness :
    (∃ v, Op.play 1 = Op.play v) ∧ isReadyConn (getConnection wReady) = true :=
  C4_handles_set_only dirOk wReady (.play 1) rfl rfl (Or.inl (by decide))

end DiscordVoice

namespace DiscordVoice

/-- Writing guildId leaves the registry untouched. -/
theorem setGuild_conns (w : World) (g : String) : (setGuild w g).conns = w.conns := rfl

/-- The variant B ready probe right after guildId was written is the ready
probe of the registry at that guild. -/
theorem isConnectionReady_setGuild (w : World) (g : String) :
    isConnectionReady (setGuild w g) = isReadyConn (getVoiceConnection w.conns g) := rfl

/-- The destroy operations of the two variants agree on state and on the
observable outcome. -/
theorem destroy_rel (w : World) :
    (destroyA w).world = (destroyB w).world ∧
    (destroyA w).outcome.obs = (destroyB w).outcome.obs := by
  cases hc : getConnection w <;>
    simp [destroyA, destroyB, getConnA_eq, hc, Outcome.obs, mkErrorA, mkErrorB,
      messagesA, messagesB]

/-- The play operations agree on state, and on the observable outcome when
a connection exists. -/
theorem play_rel (w : World) (v : Rat) :
    (playA w v).world = (playB w v).world ∧
    (getConnection w ≠ none → (playA w v).outcome.obs = (playB w v).outcome.obs) := by
  cases hc : getConnection w with
  | none => simp [playA, playB, getConnA_eq, isConnectionReady, hc, isReadyConn]
  | some c =>
    by_cases hs : (c.status == ConnStatus.Ready) = true <;>
      simp [playA, playB, getConnA_eq, isConnectionReady, hc, isReadyConn, hs,
        Outcome.obs, mkErrorA, mkErrorB, messagesA, messagesB]

/-- The pause operations agree on state, and on the observable outcome when
a connection exists. -/
theorem pause_rel (w : World) (f : Bool) :
    (pauseA w f).world = (pauseB w f).world ∧
    (getConnection w ≠ none → (pauseA w f).outcome.obs = (pauseB w f).outcome.obs) := by
  cases hc : getConnection w with
  | none => simp [pauseA, pauseB, getConnA_eq, isConnectionReady, hc, isReadyConn]
  | some c =>
    by_cases hs : (c.status == ConnStatus.Ready) = true
    · cases hp : w.session.player with
      | none =>
        simp [pauseA, pauseB, getConnA_eq, isConnectionReady, hc, isReadyConn, hs, hp,
          Outcome.obs]
      | some p =>
        by_cases hps : (p.status == PlayerStatus.Paused) = true <;>
          cases f <;>
          simp [pauseA, pauseB, getConnA_eq, isConnectionReady, hc, isReadyConn, hs, hp,
            hps, Outcome.obs, mkErrorA, mkErrorB, messagesA, messagesB]
    · simp [pauseA, pauseB, getConnA_eq, isConnectionReady, hc, isReadyConn, hs,
        Outcome.obs, mkErrorA, mkErrorB, messagesA, messagesB]

/-- The unpause operations agree on state, and on the observable outcome
when a connection exists. -/
theorem unpause_rel (w : World) (f : Bool) :
    (unpauseA w f).world = (unpauseB w f).world ∧
    (getConnection w ≠ none → (unpauseA w f).outcome.obs = (unpauseB w f).outcome.obs) := by
  cases hc : getConnection w with
  | none => simp [unpauseA, unpauseB, getConnA_eq, isConnectionReady, hc, isReadyConn]
  | some c =>
    by_cases hs : (c.status == ConnStatus.Ready) = true
    · cases hp : w.session.player with
      | none =>
        simp [unpauseA, unpauseB, getConnA_eq, isConnectionReady, hc, isReadyConn, hs, hp,
          Outcome.obs]
      | some p =>
        by_cases hps : (p.status == PlayerStatus.Paused) = true <;>
          cases f <;>
          simp [unpauseA, unpauseB, getConnA_eq, isConnectionReady, hc, isReadyConn, hs,
            hp, hps, Outcome.obs, mkErrorA, mkErrorB, messagesA, messagesB]
    · simp [unpauseA, unpauseB, getConnA_eq, isConnectionReady, hc, isReadyConn, hs,
        Outcome.obs, mkErrorA, mkErrorB, messagesA, messagesB]

/-- The isPaused operations agree on state, and on the observable outcome
when a connection exists. -/
theorem isPaused_rel (w : World) :
    (isPausedA w).world = (isPausedB w).world ∧
    (getConnection w ≠ none → (isPausedA w).outcome.obs = (isPausedB w).outcome.obs) := by
  cases hc : getConnection w with
  | none => simp [isPausedA, isPausedB, getConnA_eq, isConnectionReady, hc, isReadyConn]
  | some c =>
    by_cases hs : (c.status == ConnStatus.Ready) = true
    · cases hp : w.session.player with
      | none =>
        simp [isPausedA, isPausedB, getConnA_eq, isConnectionReady, hc, isReadyConn, hs,
          hp, Outcome.obs]
      | some p =>
        simp [isPausedA, isPausedB, getConnA_eq, isConnectionReady, hc, isReadyConn, hs,
          hp, Outcome.obs]
    · simp [isPausedA, isPausedB, getConnA_eq, isConnectionReady, hc, isReadyConn, hs,
        Outcome.obs, mkErrorA, mkErrorB, messagesA, messagesB]

/-- The getVolume operations agree on state, and on the observable outcome
when a connection exists. -/
theorem getVolume_rel (w : World) :
    (getVolumeA w).world = (getVolumeB w).world ∧
    (getConnection w ≠ none → (getVolumeA w).outcome.obs = (getVolumeB w).outcome.obs) := by
  cases hc : getConnection w with
  | none => simp [getVolumeA, getVolumeB, getConnA_eq, isConnectionReady, hc, isReadyConn]
  | some c =>
    by_cases hs : (c.status == ConnStatus.Ready) = true
    · cases hr : w.session.resource with
      | none =>
        simp [getVolumeA, getVolumeB, getConnA_eq, isConnectionReady, hc, isReadyConn, hs,
          hr, Outcome.obs, mkErrorA, mkErrorB, messagesA, messagesB]
      | some r =>
        simp [getVolumeA, getVolumeB, getConnA_eq, isConnectionReady, hc, isReadyConn, hs,
          hr, Outcome.obs]
    · simp [getVolumeA, getVolumeB, getConnA_eq, isConnectionReady, hc, isReadyConn, hs,
        Outcome.obs, mkErrorA, mkErrorB, messagesA, messagesB]

/-- The setVolume operations agree on state, and on the observable outcome
when a connection exists. -/
theorem setVolume_rel (w : World) (v : Rat) :
    (setVolumeA w v).world = (setVolumeB w v).world ∧
    (getConnection w ≠ none →
      (setVolumeA w v).outcome.obs = (setVolumeB w v).outcome.obs) := by
  cases hc : getConnection w with
  | none => simp [setVolumeA, setVolumeB, getConnA_eq, isConnectionReady, hc, isReadyConn]
  | some c =>
    by_cases hs : (c.status == ConnStatus.Ready) = true
    · cases hr : w.session.resource with
      | none =>
        simp [setVolumeA, setVolumeB, getConnA_eq, isConnectionReady, hc, isReadyConn, hs,
          hr, Outcome.obs, mkErrorA, mkErrorB, messagesA, messagesB]
      | some r =>
        simp [setVolumeA, setVolumeB, getConnA_eq, isConnectionReady, hc, isReadyConn, hs,
          hr, Outcome.obs]
    · simp [setVolumeA, setVolumeB, getConnA_eq, isConnectionReady, hc, isReadyConn, hs,
        Outcome.obs, mkErrorA, mkErrorB, messagesA, messagesB]

/-- The join operations of the two variants always leave the same state. -/
theorem join_world_eq (dir : Dir) (sig : JoinSignal) (w : World) :
    (joinA dir sig w).world = (joinB dir sig w).world := by
  cases hf : dir.fetch w.session.channelId with
  | error msg => simp [joinA, joinB, hf]
  | ok ch =>
    rcases Bool.eq_false_or_eq_true ch.perms.hasAll with hb | hb <;>
      cases sig <;>
      simp [joinA, joinB, hf, hb, isConnectionReady_setGuild, setGuild_conns] <;>
      first
        | rfl
        | (split <;> rfl)

/-- The join operations agree on the observable outcome whenever channel
resolution fails. -/
theorem join_obs_fetch_error (dir : Dir) (sig : JoinSignal) (w : World) (msg : String)
    (hf : dir.fetch w.session.channelId = .error msg) :
    (joinA dir sig w).outcome.obs = (joinB dir sig w).outcome.obs := by
  simp [joinA, joinB, hf, Outcome.obs, mkErrorA, mkErrorB, messagesA, messagesB]

/-- The join operations agree on the observable outcome whenever the join
succeeds: an existing Ready connection, or full permissions with the
library reaching Ready. -/
theorem join_obs_success (dir : Dir) (w : World) (ch : Channel)
    (hf : dir.fetch w.session.channelId = .ok ch)
    (h : isReadyConn (getVoiceConnection w.conns ch.guildId) = true ∨
         ch.perms.hasAll = true) :
    (joinA dir .ready w).outcome.obs = (joinB dir .ready w).outcome.obs := by
  rcases h with h | h
  · simp [joinA, joinB, hf, isConnectionReady_setGuild, setGuild_conns, h]
  · by_cases hr : isReadyConn (getVoiceConnection w.conns ch.guildId) = true <;>
      simp [joinA, joinB, hf, isConnectionReady_setGuild, setGuild_conns, hr, h,
        Outcome.obs]

/-- C9 counterexample: the variants are not behaviorally equivalent: on a
fresh session getVolume rejects NO_CONNECTION in variant A but
CONNECTION_NOT_READY in variant B. -/
theorem C9_counterexample :
    (getVolumeA w0).outcome.obs = .code .NO_CONNECTION ∧
    (getVolumeB w0).outcome.obs = .code .CONNECTION_NOT_READY ∧
    (getVolumeA w0).outcome.obs ≠ (getVolumeB w0).outcome.obs := by
  decide

/-- C9 (amended): the variants always agree on the final state; they agree
on the observable outcome (success value or error code) for destroy, for
every non-join operation whenever a connection exists for the session
guild, and for join whenever channel resolution fails or the join succeeds.
The remaining paths are the divergences: the player operations without a
connection (NO_CONNECTION against CONNECTION_NOT_READY), the permission
failure of join (MISSING_PERMISSIONS against NO_CHANNEL), and the join
error event (raw error against NO_CHANNEL). -/
theorem C9_equivalence (dir : Dir) (w : World) :
    (∀ op, (stepA dir w op).world = (stepB dir w op).world) ∧
    ((stepA dir w .destroy).outcome.obs = (stepB dir w .destroy).outcome.obs) ∧
    (∀ op, op.isJoin = false → getConnection w ≠ none →
      (stepA dir w op).outcome.obs = (stepB dir w op).outcome.obs) ∧
    (∀ sig msg, dir.fetch w.session.channelId = .error msg →
      (stepA dir w (.join sig)).outcome.obs = (stepB dir w (.join sig)).outcome.obs) ∧
    (∀ ch, dir.fetch w.session.channelId = .ok ch →
      (isReadyConn (getVoiceConnection w.conns ch.guildId) = true ∨
        ch.perms.hasAll = true) →
      (stepA dir w (.join .ready)).outcome.obs =
        (stepB dir w (.join .ready)).outcome.obs) := by
  refine ⟨?_, (destroy_rel w).2, ?_, ?_, ?_⟩
  · intro op
    cases op with
    | join sig => exact join_world_eq dir sig w
    | destroy => exact (destroy_rel w).1
    | play v => exact (play_rel w v).1
    | pause f => exact (pause_rel w f).1
    | unpause f => exact (unpause_rel w f).1
    | isPausedOp => exact (isPaused_rel w).1
    | getVolumeOp => exact (getVolume_rel w).1
    | setVolumeOp v => exact (setVolume_rel w v).1
  · intro op hj hc
    cases op with
    | join sig => simp [Op.isJoin] at hj
    | destroy => exact (destroy_rel w).2
    | play v => exact (play_rel w v).2 hc
    | pause f => exact (pause_rel w f).2 hc
    | unpause f => exact (unpause_rel w f).2 hc
    | isPausedOp => exact (isPaused_rel w).2 hc
    | getVolumeOp => exact (getVolume_rel w).2 hc
    | setVolumeOp v => exact (setVolume_rel w v).2 hc
  · intro sig msg hf
    exact join_obs_fetch_error dir sig w msg hf
  · intro ch hf h
    exact join_obs_success dir w ch hf h

/-- Witness for C9_equivalence: getVolume on the joined session. -/
theorem C9_equivalence_witness :
    (stepA dirOk wReady .getVolumeOp).outcome.obs =
      (stepB dirOk wReady .getVolumeOp).outcome.obs :=
  (C9_equivalence dirOk wReady).2.2.1 .getVolumeOp rfl (by decide)

end DiscordVoice
